import Mathlib

/-!
Verification development for the call-export normalization pipeline
(`main.py`): header resolution, timezone-aware timestamp parsing over a
fixed ordered format list, canonical record construction, dedup
fingerprint (SHA-256 of a '|'-joined key with minute-truncated UTC time),
and the per-file driver with its counters, audit record and file
relocation.  Machine-level behaviors (blob storage, BigQuery jobs) are
modelled as recorded effects on the driver's result; each step is assumed
to succeed, matching the success paths the claims are about.
-/

set_option maxRecDepth 20000
set_option maxHeartbeats 2000000

namespace CallBackfill

/-! ## Python-style string primitives (modelled on `List Char`;
structural recursion only, so the kernel can evaluate them). -/

/-- Whitespace test used both for Python `str.strip()` and for the `\s`
class of the compiled strptime regex (ASCII whitespace suffices for the
inputs this pipeline sees). -/
def isWS (c : Char) : Bool :=
  c = ' ' ∨ c = '\t' ∨ c = '\n' ∨ c = '\r' ∨ c = '\x0b' ∨ c = '\x0c'

/-- Python `str.strip()` on a char list. -/
def stripList (cs : List Char) : List Char :=
  ((cs.dropWhile isWS).reverse.dropWhile isWS).reverse

/-- Python `str.strip()`. -/
def pyStrip (s : String) : String := String.mk (stripList s.data)

/-- Python `str.lower()` (ASCII range, which is all the pipeline's
headers and format strings use). -/
def pyLower (s : String) : String := String.mk (s.data.map Char.toLower)

/-- Python `str.upper()` (ASCII range). -/
def pyUpper (s : String) : String := String.mk (s.data.map Char.toUpper)

/-- Python `str.startswith`. -/
def pyStartsWith (s pre : String) : Bool := pre.data.isPrefixOf s.data

/-- Fuel-driven worker for `str.replace` (replace every non-overlapping
occurrence, scanning left to right).  The fuel is an upper bound on the
number of consumed characters, so structural recursion suffices. -/
def replGo (pat rep : List Char) : Nat → List Char → List Char
  | _, [] => []
  | 0, l => l
  | fuel + 1, c :: cs =>
      if pat.isPrefixOf (c :: cs) then
        rep ++ replGo pat rep fuel (List.drop pat.length (c :: cs))
      else
        c :: replGo pat rep fuel cs

/-- Python `str.replace(pat, rep)` for a non-empty pattern (the source
only replaces the non-empty patterns "UTC", BOM and NBSP). -/
def pyReplace (s pat rep : String) : String :=
  if pat.data.isEmpty then s
  else String.mk (replGo pat.data rep.data s.data.length s.data)

/-- Python `str.__contains__` for a single-character needle. -/
def pyContainsChar (s : String) (c : Char) : Bool := s.data.contains c

/-- `"|".join`-style concatenation with a separator. -/
def joinSep (sep : String) : List String → String
  | [] => ""
  | [x] => x
  | x :: xs => x ++ sep ++ joinSep sep xs

/-- Digit value of an ASCII digit character. -/
def digitVal (c : Char) : Nat := c.toNat - 48

/-- Value of a non-empty all-digit char list (base 10). -/
def digitsVal (cs : List Char) : Nat := cs.foldl (fun a c => a * 10 + digitVal c) 0

/-- Python `int(s)`: strip whitespace, optional sign, then a non-empty
digit run.  (CPython also accepts underscore separators and non-ASCII
digits; no caller of `int` in the source feeds it such strings.) -/
def pyIntOpt (s : String) : Option Int :=
  match stripList s.data with
  | [] => none
  | '+' :: ds => if ds ≠ [] ∧ ds.all Char.isDigit then some (digitsVal ds) else none
  | '-' :: ds => if ds ≠ [] ∧ ds.all Char.isDigit then some (-(digitsVal ds : Int)) else none
  | ds => if ds.all Char.isDigit then some (digitsVal ds) else none

/-! ## Python dicts (only `.get` is ever used) as assoc lists with
last-binding-wins lookup, matching dict insertion semantics. -/

/-- Lookup in a Python-style dict represented as the list of assignments
in order: the *last* assignment to a key wins. -/
def dictGet {α β : Type} [DecidableEq α] (ps : List (α × β)) (k : α) : Option β :=
  (ps.reverse.find? (fun p => decide (p.1 = k))).map (·.2)

/-! ## Timezones (`resolve_tz`, `tz_from_row_offset`).

`ZoneInfo` (the IANA database) is external input to `resolve_tz`; it is
modelled as an oracle saying which keys construct successfully and what
UTC offset (in seconds) a named zone assigns to a local wall time. -/

/-- A `tzinfo` value as the source can produce one: `timezone.utc`, a
fixed whole-hour offset `timezone(timedelta(hours=h))`, or a named
`ZoneInfo` zone. -/
inductive Tz where
  | utc : Tz
  | fixed (hours : Int) : Tz
  | named (key : String) : Tz
deriving DecidableEq, Repr

/-- The IANA zone database, abstracted: `valid k` says `ZoneInfo(k)`
constructs; `offset k t` is the zone's UTC offset in seconds at naive
local time `t` (a `Fields`-shaped local wall time, passed opaquely). -/
structure ZoneDB where
  valid : String → Bool
  offset : String → Int × Nat × Nat × Nat × Nat × Nat → Int

/-- The `UTC`-with-sign test of `resolve_tz` (line 53):
`s.upper().startswith("UTC") and any(sign in s for sign in ("+","-"))`. -/
def utcSignForm (s : String) : Bool :=
  pyStartsWith (pyUpper s) "UTC" && (pyContainsChar s '+' || pyContainsChar s '-')

/-- `resolve_tz` (main.py lines 47-62).  `timezone(timedelta(hours=h))`
raises unless `-24 < h < 24`, and every exception path degrades to UTC;
a failing `ZoneInfo` constructor also degrades to UTC.  Note the
case-sensitive `s.replace("UTC", "")` against the case-insensitive
startswith test, exactly as in the source. -/
def resolve_tz (db : ZoneDB) (tz_str : String) : Tz :=
  let s := pyStrip tz_str
  if utcSignForm s then
    match pyIntOpt (pyReplace s "UTC" "") with
    | some h => if -24 < h ∧ h < 24 then Tz.fixed h else Tz.utc
    | none => Tz.utc
  else if db.valid s then Tz.named s
  else Tz.utc

/-- `tz_from_row_offset` (main.py lines 66-72): `int(str(x).strip())`
packed into a fixed-offset zone, `None` on any failure.  A missing value
(`None`) stringifies to `"None"`, which `int` rejects, so the `none`
input maps to `none`; `timezone(...)` additionally requires the offset
to be strictly between -24 and 24 hours. -/
def tz_from_row_offset (offset_str : Option String) : Option Tz :=
  match offset_str with
  | none => none
  | some s =>
      match pyIntOpt (pyStrip s) with
      | some h => if -24 < h ∧ h < 24 then some (Tz.fixed h) else none
      | none => none

/-! ## Timestamp parsing (`DT_FORMATS`, `parse_date_local`).

`datetime.strptime` compiles the format to a regex (one alternation per
directive, matched against the whole string); the directive alternations
are deterministic here because every numeric directive in `DT_FORMATS`
is followed by a non-digit literal, so the regex engine never needs to
backtrack out of a two-digit match. -/

/-- A naive or aware datetime's fields (year, month, day, hour, minute,
second).  The year is an `Int` so post-offset arithmetic stays total. -/
structure Fields where
  year : Int
  month : Nat
  day : Nat
  hour : Nat
  minute : Nat
  second : Nat
deriving DecidableEq, Repr

/-- One strptime directive as it occurs in `DT_FORMATS`, plus literal
characters and the `\s+` class a literal space compiles to. -/
inductive Directive where
  | lit (c : Char)
  | ws
  | bigY | y2 | mo | dd | h24 | h12 | minu | sec | ampm
deriving DecidableEq, Repr

/-- Compile a strptime format string to its directive list (the model of
`_strptime.TimeRE.pattern`): `%X` becomes a directive, a whitespace
character becomes `\s+`, anything else is a literal.  Directives outside
the set used by `DT_FORMATS` do not occur. -/
def compileChars : List Char → List Directive
  | [] => []
  | '%' :: c :: rest =>
      (match c with
       | 'Y' => Directive.bigY
       | 'y' => Directive.y2
       | 'm' => Directive.mo
       | 'd' => Directive.dd
       | 'H' => Directive.h24
       | 'I' => Directive.h12
       | 'M' => Directive.minu
       | 'S' => Directive.sec
       | 'p' => Directive.ampm
       | c' => Directive.lit c') :: compileChars rest
  | c :: rest => (if isWS c then Directive.ws else Directive.lit c) :: compileChars rest

/-- Two-or-one-digit numeric field: try the two-digit alternatives of
the directive's regex first (predicate `ok2` on the value), then the
one-digit alternatives (`ok1`), exactly as the compiled alternation
orders them. -/
def flexNum (ok2 ok1 : Nat → Bool) : List Char → Option (Nat × List Char)
  | a :: b :: rest =>
      if a.isDigit && b.isDigit && ok2 (digitVal a * 10 + digitVal b) then
        some (digitVal a * 10 + digitVal b, rest)
      else if a.isDigit && ok1 (digitVal a) then some (digitVal a, b :: rest)
      else none
  | [a] => if a.isDigit && ok1 (digitVal a) then some (digitVal a, []) else none
  | [] => none

/-- Exactly two digits (`%y`). -/
def take2Digits : List Char → Option (Nat × List Char)
  | a :: b :: rest =>
      if a.isDigit && b.isDigit then some (digitVal a * 10 + digitVal b, rest) else none
  | _ => none

/-- Exactly four digits (`%Y`). -/
def take4Digits : List Char → Option (Nat × List Char)
  | a :: b :: c :: d :: rest =>
      if a.isDigit && b.isDigit && c.isDigit && d.isDigit then
        some (((digitVal a * 10 + digitVal b) * 10 + digitVal c) * 10 + digitVal d, rest)
      else none
  | _ => none

/-- Partially collected strptime fields. -/
structure PFields where
  yr4 : Option Nat := none
  yr2 : Option Nat := none
  pmo : Option Nat := none
  pdd : Option Nat := none
  ph24 : Option Nat := none
  ph12 : Option Nat := none
  pmin : Option Nat := none
  psec : Option Nat := none
  ppm : Option Bool := none
deriving Repr

/-- Run the compiled directives against the input characters; the whole
string must be consumed (strptime rejects trailing text). -/
def runDirs : List Directive → List Char → PFields → Option PFields
  | [], [], st => some st
  | [], _ :: _, _ => none
  | Directive.lit ch :: ds, cs, st =>
      match cs with
      | c :: rest => if c = ch then runDirs ds rest st else none
      | [] => none
  | Directive.ws :: ds, cs, st =>
      if (cs.takeWhile isWS).isEmpty then none
      else runDirs ds (cs.dropWhile isWS) st
  | Directive.bigY :: ds, cs, st =>
      match take4Digits cs with
      | some (v, rest) => runDirs ds rest { st with yr4 := some v }
      | none => none
  | Directive.y2 :: ds, cs, st =>
      match take2Digits cs with
      | some (v, rest) => runDirs ds rest { st with yr2 := some v }
      | none => none
  | Directive.mo :: ds, cs, st =>
      match flexNum (fun v => 1 ≤ v && v ≤ 12) (fun v => 1 ≤ v) cs with
      | some (v, rest) => runDirs ds rest { st with pmo := some v }
      | none => none
  | Directive.dd :: ds, cs, st =>
      match flexNum (fun v => 1 ≤ v && v ≤ 31) (fun v => 1 ≤ v) cs with
      | some (v, rest) => runDirs ds rest { st with pdd := some v }
      | none => none
  | Directive.h24 :: ds, cs, st =>
      match flexNum (fun v => v ≤ 23) (fun _ => true) cs with
      | some (v, rest) => runDirs ds rest { st with ph24 := some v }
      | none => none
  | Directive.h12 :: ds, cs, st =>
      match flexNum (fun v => 1 ≤ v && v ≤ 12) (fun v => 1 ≤ v) cs with
      | some (v, rest) => runDirs ds rest { st with ph12 := some v }
      | none => none
  | Directive.minu :: ds, cs, st =>
      match flexNum (fun v => v ≤ 59) (fun _ => true) cs with
      | some (v, rest) => runDirs ds rest { st with pmin := some v }
      | none => none
  | Directive.sec :: ds, cs, st =>
      match flexNum (fun v => v ≤ 61) (fun _ => true) cs with
      | some (v, rest) => runDirs ds rest { st with psec := some v }
      | none => none
  | Directive.ampm :: ds, cs, st =>
      match cs with
      | a :: b :: rest =>
          if a.toLower = 'a' && b.toLower = 'm' then runDirs ds rest { st with ppm := some false }
          else if a.toLower = 'p' && b.toLower = 'm' then runDirs ds rest { st with ppm := some true }
          else none
      | _ => none

/-- Proleptic-Gregorian leap year (as `calendar.isleap` / `datetime`). -/
def isLeap (y : Int) : Bool := (y % 4 = 0 ∧ y % 100 ≠ 0) ∨ y % 400 = 0

/-- Days in a month of the proleptic Gregorian calendar. -/
def daysInMonth (y : Int) (m : Nat) : Nat :=
  match m with
  | 1 => 31 | 2 => if isLeap y then 29 else 28 | 3 => 31 | 4 => 30
  | 5 => 31 | 6 => 30 | 7 => 31 | 8 => 31
  | 9 => 30 | 10 => 31 | 11 => 30 | _ => 31

/-- Turn collected strptime fields into a `datetime`, with strptime's
defaults (1900-01-01 00:00:00), its `%y` pivot (00-68 means 2000s), the
`%I`/`%p` 12-hour conversion, and the `datetime` constructor's range
checks (year 1..9999, valid day of month, second ≤ 59 — strptime's `%S`
admits 60 and 61 but the constructor then raises `ValueError`). -/
def finalizePF (p : PFields) : Option Fields :=
  let year : Int :=
    match p.yr4, p.yr2 with
    | some v, _ => (v : Int)
    | none, some v => if v ≤ 68 then (2000 + v : Nat) else (1900 + v : Nat)
    | none, none => 1900
  let month := p.pmo.getD 1
  let day := p.pdd.getD 1
  let hour : Nat :=
    match p.ph24 with
    | some h => h
    | none =>
        match p.ph12, p.ppm with
        | some i, some true => if i = 12 then 12 else i + 12
        | some i, some false => if i = 12 then 0 else i
        | some i, none => i
        | none, _ => 0
  let minute := p.pmin.getD 0
  let second := p.psec.getD 0
  if 1 ≤ year ∧ year ≤ 9999 ∧ 1 ≤ day ∧ day ≤ daysInMonth year month ∧ second ≤ 59 then
    some ⟨year, month, day, hour, minute, second⟩
  else none

/-- `datetime.strptime(txt, fmt)` for the formats the source uses. -/
def tryFormat (fmt txt : String) : Option Fields :=
  (runDirs (compileChars fmt.data) txt.data {}).bind finalizePF

/-- `DT_FORMATS` (main.py lines 33-42), in source order. -/
def DT_FORMATS : List String :=
  [ "%Y-%m-%d %H:%M:%S",
    "%Y-%m-%d %H:%M",
    "%m/%d/%Y %H:%M:%S",
    "%m/%d/%Y %H:%M",
    "%m/%d/%y %H:%M:%S",
    "%m/%d/%y %H:%M",
    "%m/%d/%y %I:%M %p",
    "%m/%d/%Y %I:%M %p" ]

/-! ## Instant arithmetic and formatting (fixed offsets and the abstract
zone database drive `datetime.astimezone(UTC)`). -/

/-- Days from 1970-01-01 of a proleptic-Gregorian civil date
(Hinnant's `days_from_civil`). -/
def daysFromCivil (y : Int) (m d : Nat) : Int :=
  let y' : Int := if m ≤ 2 then y - 1 else y
  let era : Int := Int.ediv y' 400
  let yoe : Nat := (Int.emod y' 400).toNat
  let doy : Nat := (153 * (if 2 < m then m - 3 else m + 9) + 2) / 5 + d - 1
  let doe : Nat := yoe * 365 + yoe / 4 - yoe / 100 + doy
  era * 146097 + (doe : Int) - 719468

/-- Civil date of a day count from 1970-01-01 (Hinnant's
`civil_from_days`). -/
def civilFromDays (z0 : Int) : Int × Nat × Nat :=
  let z : Int := z0 + 719468
  let era : Int := Int.ediv z 146097
  let doe : Nat := (Int.emod z 146097).toNat
  let yoe : Nat := (doe - doe / 1460 + doe / 36524 - doe / 146096) / 365
  let y : Int := (yoe : Int) + era * 400
  let doy : Nat := doe - (365 * yoe + yoe / 4 - yoe / 100)
  let mp : Nat := (5 * doy + 2) / 153
  let d : Nat := doy - (153 * mp + 2) / 5 + 1
  let m : Nat := if mp < 10 then mp + 3 else mp - 9
  (if m ≤ 2 then y + 1 else y, m, d)

/-- Seconds from the epoch of a naive datetime read as UTC. -/
def epochOf (f : Fields) : Int :=
  daysFromCivil f.year f.month f.day * 86400 +
    ((f.hour * 3600 + f.minute * 60 + f.second : Nat) : Int)

/-- Naive datetime of a seconds-from-epoch instant. -/
def fieldsOfEpoch (t : Int) : Fields :=
  let d := Int.ediv t 86400
  let s := (Int.emod t 86400).toNat
  let c := civilFromDays d
  ⟨c.1, c.2.1, c.2.2, s / 3600, s % 3600 / 60, s % 60⟩

/-- The UTC offset in seconds a `tzinfo` assigns to naive local time
`f` (`utcoffset`); named zones consult the zone database. -/
def tzOffsetSecs (db : ZoneDB) (tz : Tz) (f : Fields) : Int :=
  match tz with
  | Tz.utc => 0
  | Tz.fixed h => h * 3600
  | Tz.named k => db.offset k (f.year, f.month, f.day, f.hour, f.minute, f.second)

/-- `dt_naive.replace(tzinfo=tz).astimezone(UTC)` (main.py lines
130-131): reinterpret the wall time in `tz` and convert to UTC. -/
def astimezoneUTC (db : ZoneDB) (tz : Tz) (f : Fields) : Fields :=
  fieldsOfEpoch (epochOf f - tzOffsetSecs db tz f)

/-- Zero-padded 2-digit decimal. -/
def pad2 (n : Nat) : String :=
  if n < 10 then "0" ++ toString n else toString n

/-- Zero-padded 4-digit decimal (`datetime` years are 1..9999). -/
def pad4 (n : Nat) : String :=
  if n < 10 then "000" ++ toString n
  else if n < 100 then "00" ++ toString n
  else if n < 1000 then "0" ++ toString n
  else toString n

/-- `dt_utc.isoformat()` for a UTC-aware datetime with zero
microseconds (main.py line 206): RFC3339 with a `+00:00` suffix. -/
def isoformatUTC (f : Fields) : String :=
  pad4 f.year.toNat ++ "-" ++ pad2 f.month ++ "-" ++ pad2 f.day ++ "T" ++
    pad2 f.hour ++ ":" ++ pad2 f.minute ++ ":" ++ pad2 f.second ++ "+00:00"

/-- `dt_utc.strftime("%Y-%m-%d %H:%M")` (main.py line 235): the
minute-truncated time component of the dedup key. -/
def strftimeMinute (f : Fields) : String :=
  pad4 f.year.toNat ++ "-" ++ pad2 f.month ++ "-" ++ pad2 f.day ++ " " ++
    pad2 f.hour ++ ":" ++ pad2 f.minute

/-- `str(timezone(timedelta(hours=h)))` / `str(ZoneInfo(key))`, used for
the `SourceTimezone` provenance field (main.py line 225). -/
def pyStrTz (t : Tz) : String :=
  match t with
  | Tz.utc => "UTC"
  | Tz.fixed h =>
      if h = 0 then "UTC"
      else "UTC" ++ (if 0 ≤ h then "+" else "-") ++ pad2 h.natAbs ++ ":00"
  | Tz.named k => k

/-- First matching format wins: the `for fmt in DT_FORMATS` loop of
`parse_date_local` (main.py lines 126-134), returning the naive parse of
the first format that succeeds. -/
def firstFmt : List String → String → Option Fields
  | [], _ => none
  | fmt :: rest, txt =>
      match tryFormat fmt txt with
      | some d => some d
      | none => firstFmt rest txt

/-- `parse_date_local` (main.py lines 115-135): `None` for a missing or
(after strip) empty input; otherwise the stripped text paired with the
UTC instant of the first format that parses, interpreted in the override
timezone if given, else the configured source zone.  (The source
converts inside the loop body; conversion is total, so hoisting it past
the first success is behavior-preserving.) -/
def parse_date_local (db : ZoneDB) (srcTz : Tz) (s : Option String)
    (tzinfo_override : Option Tz) : Option (String × Fields) :=
  match s with
  | none => none
  | some s0 =>
      let txt := pyStrip s0
      if txt = "" then none
      else
        match firstFmt DT_FORMATS txt with
        | none => none
        | some d => some (txt, astimezoneUTC db (tzinfo_override.getD srcTz) d)

/-! ## Header and field helpers (`normalize_headers`, `get_val`,
`safe_str`, `normalize_phone`, `pick_lead_id`).

A `DictReader` row maps original headers (which can be `None` when the
field names list contains `None`) to cell values (which can be `None`
for short rows); both sides are therefore `Option String`. -/

/-- One CSV row as `DictReader` hands it to the loop body. -/
abbrev RawRow : Type := List (Option String × Option String)

/-- The header map from cleaned, lower-cased names to original header
strings; the value is `Option String` because a `None` field name is
stored as-is. -/
abbrev HeaderMap : Type := List (String × Option String)

/-- The `clean` helper of `normalize_headers` (main.py lines 79-82):
`None` becomes `""`, otherwise strip the BOM, turn NBSP into a space,
strip and lower-case. -/
def cleanHeader (h : Option String) : String :=
  match h with
  | none => ""
  | some s => pyLower (pyStrip (pyReplace (pyReplace s "\uFEFF" "") "\u00A0" " "))

/-- `normalize_headers` (main.py lines 75-83): the dict comprehension
`{ clean(h): h for h in (fieldnames or []) }` — note that empty and
`None` headers are *kept*, keyed by the empty string. -/
def normalize_headers (fieldnames : List (Option String)) : HeaderMap :=
  fieldnames.map (fun h => (cleanHeader h, h))

/-- The candidate-name cleaning of `get_val` (main.py line 90), the same
transformation `clean` applies to headers. -/
def cleanCand (s : String) : String := cleanHeader (some s)

/-- `get_val` (main.py lines 85-96): first candidate whose cleaned name
resolves to a stored, non-`None` original header under which the row
holds a non-`None` value. -/
def get_val (row : RawRow) (header_map : HeaderMap) (candidates : List String) :
    Option String :=
  candidates.findSome? (fun cand =>
    match dictGet header_map (cleanCand cand) with
    | some (some orig) =>
        match dictGet row (some orig) with
        | some (some v) => some v
        | _ => none
    | _ => none)

/-- `safe_str` (main.py lines 98-99): strip, and coerce `None` or an
empty result to `None`. -/
def safe_str (x : Option String) : Option String :=
  match x with
  | none => none
  | some s => let t := pyStrip s; if t = "" then none else some t

/-- `normalize_phone` (main.py lines 101-105): keep only digits
(`re.sub(r"\D+", "", ...)`), `None` if none remain. -/
def normalize_phone (val : Option String) : Option String :=
  match val with
  | none => none
  | some v =>
      let ds := v.data.filter Char.isDigit
      if ds.isEmpty then none else some (String.mk ds)

/-- `LEAD_KEYS` (main.py line 30). -/
def LEAD_KEYS : List String := ["lead_id", "vendor_lead_code", "LeadID"]

/-- `pick_lead_id` (main.py lines 107-112): first truthy (non-empty)
value under a `LEAD_KEYS` candidate, stripped; else
`safe_str(get_val(row, hm, "vendor_lead_code", "lead_id"))`. -/
def pick_lead_id (row : RawRow) (header_map : HeaderMap) : Option String :=
  match LEAD_KEYS.findSome? (fun k =>
      match get_val row header_map [k] with
      | some v => if v ≠ "" then some (pyStrip v) else none
      | none => none) with
  | some s => some s
  | none => safe_str (get_val row header_map ["vendor_lead_code", "lead_id"])

/-! ## SHA-256 (`hashlib.sha256(dedup.encode()).hexdigest()`), over
byte lists with `Nat` words reduced mod 2^32. -/

/-- UTF-8 bytes of one character (`str.encode()`). -/
def utf8Char (c : Char) : List Nat :=
  let n := c.toNat
  if n < 128 then [n]
  else if n < 2048 then [192 + n / 64, 128 + n % 64]
  else if n < 65536 then [224 + n / 4096, 128 + n / 64 % 64, 128 + n % 64]
  else [240 + n / 262144, 128 + n / 4096 % 64, 128 + n / 64 % 64, 128 + n % 64]

/-- UTF-8 bytes of a string. -/
def utf8Bytes (s : String) : List Nat := s.data.flatMap utf8Char

/-- 32-bit truncation. -/
def w32 (n : Nat) : Nat := n % 4294967296

/-- 32-bit right rotation. -/
def rotr (n x : Nat) : Nat := w32 ((x >>> n) ||| (x <<< (32 - n)))

/-- The eight working variables / hash state of SHA-256. -/
structure Hash8 where
  a : Nat
  b : Nat
  c : Nat
  d : Nat
  e : Nat
  f : Nat
  g : Nat
  h : Nat

/-- SHA-256 initial hash value (FIPS 180-4 `H0..H7`, in decimal). -/
def sha256Init : Hash8 :=
  ⟨1779033703, 3144134277, 1013904242, 2773480762,
   1359893119, 2600822924, 528734635, 1541459225⟩

/-- SHA-256 round constants (FIPS 180-4 `K0..K63`, in decimal). -/
def sha256K : List Nat :=
  [1116352408, 1899447441, 3049323471, 3921009573, 961987163,
   1508970993, 2453635748, 2870763221, 3624381080, 310598401,
   607225278, 1426881987, 1925078388, 2162078206, 2614888103,
   3248222580, 3835390401, 4022224774, 264347078, 604807628,
   770255983, 1249150122, 1555081692, 1996064986, 2554220882,
   2821834349, 2952996808, 3210313671, 3336571891, 3584528711,
   113926993, 338241895, 666307205, 773529912, 1294757372,
   1396182291, 1695183700, 1986661051, 2177026350, 2456956037,
   2730485921, 2820302411, 3259730800, 3345764771, 3516065817,
   3600352804, 4094571909, 275423344, 430227734, 506948616,
   659060556, 883997877, 958139571, 1322822218, 1537002063,
   1747873779, 1955562222, 2024104815, 2227730452, 2361852424,
   2428436474, 2756734187, 3204031479, 3329325298]

/-- Big-endian 32-bit words of a 64-byte block. -/
def blockWords : List Nat → List Nat
  | b0 :: b1 :: b2 :: b3 :: rest =>
      (((b0 * 256 + b1) * 256 + b2) * 256 + b3) :: blockWords rest
  | _ => []

/-- Extend the 16 message words to 64 (one step appends
`σ1(w[n-2]) + w[n-7] + σ0(w[n-15]) + w[n-16]`). -/
def extendW : Nat → List Nat → List Nat
  | 0, w => w
  | fuel + 1, w =>
      let n := w.length
      let x15 := w.getD (n - 15) 0
      let x2 := w.getD (n - 2) 0
      let s0 := (rotr 7 x15) ^^^ (rotr 18 x15) ^^^ (x15 >>> 3)
      let s1 := (rotr 17 x2) ^^^ (rotr 19 x2) ^^^ (x2 >>> 10)
      extendW fuel (w ++ [w32 (w.getD (n - 16) 0 + s0 + w.getD (n - 7) 0 + s1)])

/-- One SHA-256 round. -/
def sha256Round (st : Hash8) (kw : Nat × Nat) : Hash8 :=
  let s1 := (rotr 6 st.e) ^^^ (rotr 11 st.e) ^^^ (rotr 25 st.e)
  let ch := (st.e &&& st.f) ^^^ ((st.e ^^^ 4294967295) &&& st.g)
  let t1 := w32 (st.h + s1 + ch + kw.1 + kw.2)
  let s0 := (rotr 2 st.a) ^^^ (rotr 13 st.a) ^^^ (rotr 22 st.a)
  let mj := (st.a &&& st.b) ^^^ (st.a &&& st.c) ^^^ (st.b &&& st.c)
  let t2 := w32 (s0 + mj)
  ⟨w32 (t1 + t2), st.a, st.b, st.c, w32 (st.d + t1), st.e, st.f, st.g⟩

/-- Compress one 64-byte block into the running hash. -/
def sha256Block (st : Hash8) (block : List Nat) : Hash8 :=
  let w := extendW 48 (blockWords block)
  let r := (sha256K.zip w).foldl sha256Round st
  ⟨w32 (st.a + r.a), w32 (st.b + r.b), w32 (st.c + r.c), w32 (st.d + r.d),
   w32 (st.e + r.e), w32 (st.f + r.f), w32 (st.g + r.g), w32 (st.h + r.h)⟩

/-- Split the padded message into 64-byte blocks (fuel-driven). -/
def chunks64 : Nat → List Nat → List (List Nat)
  | _, [] => []
  | 0, _ => []
  | fuel + 1, l => l.take 64 :: chunks64 fuel (l.drop 64)

/-- SHA-256 padding: `0x80`, zeros to 56 mod 64, then the bit length as
eight big-endian bytes. -/
def sha256Pad (msg : List Nat) : List Nat :=
  let L := msg.length
  let k := (119 - L % 64) % 64
  msg ++ [128] ++ List.replicate k 0 ++
    [L * 8 / 72057594037927936 % 256, L * 8 / 281474976710656 % 256,
     L * 8 / 1099511627776 % 256, L * 8 / 4294967296 % 256,
     L * 8 / 16777216 % 256, L * 8 / 65536 % 256, L * 8 / 256 % 256, L * 8 % 256]

/-- The SHA-256 state after absorbing a byte message. -/
def sha256Bytes (msg : List Nat) : Hash8 :=
  let padded := sha256Pad msg
  (chunks64 (padded.length / 64 + 1) padded).foldl sha256Block sha256Init

/-- Big-endian bytes of a 32-bit word. -/
def wordBytes (w : Nat) : List Nat :=
  [w / 16777216 % 256, w / 65536 % 256, w / 256 % 256, w % 256]

/-- The 32 digest bytes of a hash state. -/
def digestBytes (st : Hash8) : List Nat :=
  wordBytes st.a ++ wordBytes st.b ++ wordBytes st.c ++ wordBytes st.d ++
    wordBytes st.e ++ wordBytes st.f ++ wordBytes st.g ++ wordBytes st.h

/-- Lower-case hex digit. -/
def hexChar (n : Nat) : Char :=
  if n < 10 then Char.ofNat (48 + n) else Char.ofNat (87 + n)

/-- `hashlib.sha256(s.encode()).hexdigest()`. -/
def sha256Hex (s : String) : String :=
  String.mk ((digestBytes (sha256Bytes (utf8Bytes s))).flatMap
    (fun b => [hexChar (b / 16 % 16), hexChar (b % 16)]))

/-! ## Canonical records, the per-row mapper and the per-file driver
(`main`, main.py lines 158-276).

The driver's external side effects are recorded in a `MainResult`: what was
uploaded, loaded, merged, audited, copied and deleted.  Each external
call is assumed to succeed (an exception would abort the invocation and
perform none of the later effects). -/

/-- Environment configuration (main.py lines 14-22) with its defaults. -/
structure Config where
  inputPfx : String := "call-exports/"
  sourceTz : String := "UTC-7"
  timeTolSec : Int := 60
  tmpPfx : String := "tmp/normalized/"
deriving Repr

/-- `SRC_TZ_OBJ = resolve_tz(SOURCE_TZ)` (main.py line 64). -/
def srcTzObj (db : ZoneDB) (cfg : Config) : Tz := resolve_tz db cfg.sourceTz

/-- The `mapped` dict (main.py lines 205-240) as a typed record; `_raw`
keeps the original row (its JSON serialization is output formatting). -/
structure CanonicalRecord where
  Date : String
  FirstName : Option String
  LastName : Option String
  Address : Option String
  CallNotes : Option String
  TalkTime : Option String
  SiteName : Option String
  Phone : Option String
  Email : Option String
  LeadID : Option String
  ListDescription : Option String
  ListID : Option String
  Disposition : Option String
  TermReason : Option String
  SubscriberID : Option String
  Source : Option String
  LeadType : Option String
  SourceLocalTime : String
  SourceTimezone : String
  SourceFile : String
  DedupKey : String
  RowHash : String
  raw : RawRow
deriving DecidableEq

/-- `key_parts` and `"|".join` (main.py lines 230-237): phone, lead id,
list id, disposition (empty string for an absent value) and the UTC
timestamp truncated to the minute. -/
def dedupKeyOf (phone leadID listID dispo : Option String) (dtUtc : Fields) : String :=
  joinSep "|" [phone.getD "", leadID.getD "", listID.getD "", dispo.getD "",
    strftimeMinute dtUtc]

/-- The loop body for one row (main.py lines 188-243): reject when the
call-date fails to parse, otherwise build the canonical record, its
dedup key and its SHA-256 row hash. -/
def processRow (db : ZoneDB) (cfg : Config) (header_map : HeaderMap)
    (source_file : String) (row : RawRow) : Option CanonicalRecord :=
  let row_tz := tz_from_row_offset (get_val row header_map ["gmt_offset_now"])
  match parse_date_local db (srcTzObj db cfg) (get_val row header_map ["call_date"]) row_tz with
  | none => none
  | some (src_txt, dt_utc) =>
      let phone := normalize_phone (get_val row header_map ["phone_number_dialed", "phone_number"])
      let lead_id := pick_lead_id row header_map
      let leadID : Option String :=
        match lead_id with
        | none => none
        | some v => let t := pyStrip v; if t = "" then none else some t
      let listID := safe_str (get_val row header_map ["list_id"])
      let dispo := safe_str (get_val row header_map ["status"])
      let dedup := dedupKeyOf phone leadID listID dispo dt_utc
      some
        { Date := isoformatUTC dt_utc
          FirstName := safe_str (get_val row header_map ["first_name"])
          LastName := safe_str (get_val row header_map ["last_name"])
          Address := safe_str (get_val row header_map ["address1"])
          CallNotes := safe_str (get_val row header_map ["call_notes"])
          TalkTime := safe_str (get_val row header_map ["campaign_id"])
          SiteName := none
          Phone := phone
          Email := safe_str (get_val row header_map ["email"])
          LeadID := leadID
          ListDescription := safe_str (get_val row header_map ["list_description"])
          ListID := listID
          Disposition := dispo
          TermReason := none
          SubscriberID := none
          Source := none
          LeadType := none
          SourceLocalTime := src_txt
          SourceTimezone := (match row_tz with | some t => pyStrTz t | none => cfg.sourceTz)
          SourceFile := source_file
          DedupKey := dedup
          RowHash := sha256Hex dedup
          raw := row }

/-- The counters and the emitted batch after the row loop. -/
structure LoopRes where
  total : Nat
  good : Nat
  bad : Nat
  batch : List CanonicalRecord
deriving DecidableEq

/-- The row loop (main.py lines 184-243): every row bumps `total` and
exactly one of `good`/`bad`; accepted records are emitted in arrival
order. -/
def processRows (db : ZoneDB) (cfg : Config) (header_map : HeaderMap)
    (source_file : String) : List RawRow → LoopRes
  | [] => ⟨0, 0, 0, []⟩
  | row :: rest =>
      let r := processRows db cfg header_map source_file rest
      match processRow db cfg header_map source_file row with
      | none => ⟨r.total + 1, r.good, r.bad + 1, r.batch⟩
      | some c => ⟨r.total + 1, r.good + 1, r.bad, c :: r.batch⟩

/-- The GCS `object.finalize` event payload fields `main` reads. -/
structure Event where
  bucket : String
  name : String
deriving DecidableEq, Repr

/-- The audit row `main` inserts (main.py lines 257-271);
`RowsInserted`/`RowsSkippedExisting` are the literal NULLs. -/
structure AuditRow where
  sourceFile : String
  rowsTotal : Nat
  rowsErrored : Nat
  note : String
deriving DecidableEq, Repr

/-- The observable effects of one `main` invocation: whether the object
was downloaded, what NDJSON batch was uploaded and under which key, the
URI handed to the staging load, the tolerance handed to the merge, the
audit row, the `processed/` copy target, and whether the original blob
was deleted. -/
structure MainResult where
  sourceRead : Bool
  batch : Option (String × List CanonicalRecord)
  loadedFrom : Option String
  mergeTol : Option Int
  audit : Option AuditRow
  copiedTo : Option String
  deleted : Bool
deriving DecidableEq

/-- `object_name.rsplit('/', 1)[-1]`. -/
def lastPathComponent (s : String) : String :=
  String.mk ((s.data.reverse.takeWhile (fun c => c ≠ '/')).reverse)

/-- `main` (main.py lines 158-276) over an already-downloaded CSV,
presented as its `DictReader` field names and rows: return early on a
prefix mismatch, run the row loop, and perform upload/load/merge only
when at least one row was accepted, then always audit and relocate. -/
def mainFn (db : ZoneDB) (cfg : Config) (event : Event)
    (fieldnames : List (Option String)) (rows : List RawRow) : MainResult :=
  if ¬ pyStartsWith event.name cfg.inputPfx then
    ⟨false, none, none, none, none, none, false⟩
  else
    let source_file := "gs://" ++ event.bucket ++ "/" ++ event.name
    let header_map := normalize_headers fieldnames
    let tmp_key := cfg.tmpPfx ++ event.name ++ ".ndjson"
    let r := processRows db cfg header_map source_file rows
    { sourceRead := true
      batch := if 0 < r.good then some (tmp_key, r.batch) else none
      loadedFrom := if 0 < r.good then some ("gs://" ++ event.bucket ++ "/" ++ tmp_key) else none
      mergeTol := if 0 < r.good then some cfg.timeTolSec else none
      audit := some
        { sourceFile := source_file
          rowsTotal := r.total
          rowsErrored := r.bad
          note := "Processed good=" ++ toString r.good ++ ", bad=" ++ toString r.bad }
      copiedTo := some ("processed/" ++ lastPathComponent event.name)
      deleted := true }

/-! ## Concrete instances used by the theorems below. -/

/-- A zone database with no named zones (fixed offsets never consult
it, so it is the neutral instance for the fixed-offset scenarios). -/
def dbNone : ZoneDB := ⟨fun _ => false, fun _ _ => 0⟩

/-- A zone database knowing one named zone, for exercising the
named-zone path of `resolve_tz`. -/
def dbDenver : ZoneDB := ⟨fun k => k = "America/Denver", fun _ _ => -21600⟩

/-- Header row of the demonstration file (all recognized names). -/
def hdrsDemo : List (Option String) :=
  [some "phone_number", some "lead_id", some "list_id", some "status",
   some "call_date", some "gmt_offset_now", some "first_name"]

/-- The spec's concrete scenario row: phone 555-123-4567 (supplied under
the recognized `phone_number` header), lead L1, list A, status SALE,
call date `9/2/25 11:02`, row offset `-4`. -/
def rowDemo : RawRow :=
  [(some "phone_number", some "555-123-4567"), (some "lead_id", some "L1"),
   (some "list_id", some "A"), (some "status", some "SALE"),
   (some "call_date", some "9/2/25 11:02"), (some "gmt_offset_now", some "-4")]

/-- A row whose call date no accepted format parses. -/
def rowBad : RawRow :=
  [(some "phone_number", some "555-000-1111"), (some "call_date", some "Sept 2 2025")]

/-- Like `rowDemo` but with seconds `:05` and a first name. -/
def rowSecA : RawRow :=
  [(some "phone_number", some "555-123-4567"), (some "lead_id", some "L1"),
   (some "list_id", some "A"), (some "status", some "SALE"),
   (some "call_date", some "9/2/25 11:02:05"), (some "gmt_offset_now", some "-4"),
   (some "first_name", some "Ann")]

/-- Like `rowSecA` but with seconds `:59` and another first name. -/
def rowSecB : RawRow :=
  [(some "phone_number", some "555-123-4567"), (some "lead_id", some "L1"),
   (some "list_id", some "A"), (some "status", some "SALE"),
   (some "call_date", some "9/2/25 11:02:59"), (some "gmt_offset_now", some "-4"),
   (some "first_name", some "Bob")]

/-- The demonstration file's header map. -/
def hmDemo : HeaderMap := normalize_headers hdrsDemo

/-- The demonstration file's source URI. -/
def sfDemo : String := "gs://call-exports/call-exports/export1.csv"

/-- An arbitrary record, used only as the default of `Option.getD`. -/
def dummyRec : CanonicalRecord :=
  ⟨"", none, none, none, none, none, none, none, none, none, none, none,
   none, none, none, none, none, "", "", "", "", "", []⟩

/-- The record the pipeline produces for `rowSecA`. -/
def recSecA : CanonicalRecord :=
  (processRow dbNone {} hmDemo sfDemo rowSecA).getD dummyRec

/-- The record the pipeline produces for `rowSecB`. -/
def recSecB : CanonicalRecord :=
  (processRow dbNone {} hmDemo sfDemo rowSecB).getD dummyRec

/-- Two UTC instants in the same minute (possibly different seconds). -/
def sameMinute (a b : Fields) : Prop :=
  a.year = b.year ∧ a.month = b.month ∧ a.day = b.day ∧
    a.hour = b.hour ∧ a.minute = b.minute

/-- The demonstration trigger event. -/
def evDemo : Event := ⟨"call-exports", "call-exports/export1.csv"⟩

/-- The audit row of the two-row demonstration file (one accepted row,
one rejected row). -/
def auditDemo : AuditRow :=
  (mainFn dbNone {} evDemo hdrsDemo [rowDemo, rowBad]).audit.getD ⟨"", 0, 0, ""⟩

/-! ## General lemmas. -/

/-- The hex digest always has 64 characters. -/
theorem sha256Hex_length (s : String) : (sha256Hex s).length = 64 := rfl

/-- The format loop fails exactly when every format fails. -/
theorem firstFmt_none_iff (l : List String) (txt : String) :
    firstFmt l txt = none ↔ ∀ fmt ∈ l, tryFormat fmt txt = none := by
  induction l with
  | nil => simp [firstFmt]
  | cons f fs ih =>
      simp only [firstFmt]
      cases h : tryFormat f txt with
      | some d => simp [h]
      | none => simp [h, ih]

/-- The format loop returns the first format's parse when all earlier
formats fail. -/
theorem firstFmt_first (l : List String) (txt : String) (i : Nat) (d : Fields)
    (hi : i < l.length)
    (hprev : ∀ j, j < i → tryFormat (l.getD j "") txt = none)
    (hit : tryFormat (l.getD i "") txt = some d) :
    firstFmt l txt = some d := by
  induction l generalizing i with
  | nil => simp at hi
  | cons f fs ih =>
      cases i with
      | zero =>
          simp only [List.getD_cons_zero] at hit
          simp [firstFmt, hit]
      | succ i =>
          have h0 : tryFormat f txt = none := by
            have := hprev 0 (Nat.succ_pos i)
            simpa using this
          simp only [firstFmt, h0]
          exact ih i (by simpa using hi)
            (fun j hj => by simpa using hprev (j + 1) (Nat.succ_lt_succ hj))
            (by simpa using hit)

/-- The loop counters always satisfy `total = good + bad = #rows`. -/
theorem processRows_counters (db : ZoneDB) (cfg : Config) (hm : HeaderMap)
    (sf : String) (rows : List RawRow) :
    (processRows db cfg hm sf rows).total =
        (processRows db cfg hm sf rows).good + (processRows db cfg hm sf rows).bad ∧
      (processRows db cfg hm sf rows).total = rows.length := by
  induction rows with
  | nil => simp [processRows]
  | cons r rs ih =>
      simp only [processRows]
      cases h : processRow db cfg hm sf r <;> simp [h] <;> omega

/-- A stored binding makes `dictGet` succeed. -/
theorem dictGet_isSome_of_mem {α β : Type} [DecidableEq α] (ps : List (α × β))
    (k : α) (v : β) (h : (k, v) ∈ ps) : (dictGet ps k).isSome = true := by
  cases hf : List.find? (fun p => decide (p.1 = k)) ps.reverse with
  | some x => simp [dictGet, hf]
  | none =>
      exfalso
      have := List.find?_eq_none.mp hf (k, v) (by simpa using h)
      simp at this

/-- An accepted row's record carries the stripped original timestamp
text, a dedup key assembled from its own Phone/LeadID/ListID/Disposition
fields and the parsed UTC instant, and the hash of that key. -/
theorem processRow_spec (db : ZoneDB) (cfg : Config) (hm : HeaderMap) (sf : String)
    (row : RawRow) (c : CanonicalRecord) (txt : String) (t : Fields)
    (h : processRow db cfg hm sf row = some c)
    (hp : parse_date_local db (srcTzObj db cfg) (get_val row hm ["call_date"])
        (tz_from_row_offset (get_val row hm ["gmt_offset_now"])) = some (txt, t)) :
    c.SourceLocalTime = txt ∧
      c.DedupKey = dedupKeyOf c.Phone c.LeadID c.ListID c.Disposition t ∧
      c.RowHash = sha256Hex c.DedupKey := by
  simp only [processRow, hp] at h
  injection h with h
  subst h
  exact ⟨rfl, rfl, rfl⟩

/-- No accepted format matches the empty string, so the loop fails. -/
theorem firstFmt_empty_none : firstFmt DT_FORMATS "" = none := by decide

/-- `parse_date_local` on a present string fails exactly when the format
loop fails on the stripped text. -/
theorem parse_none_iff_firstFmt (db : ZoneDB) (srcTz : Tz) (s : String) (tzov : Option Tz) :
    parse_date_local db srcTz (some s) tzov = none ↔
      firstFmt DT_FORMATS (pyStrip s) = none := by
  by_cases he : pyStrip s = ""
  · simp [parse_date_local, he, firstFmt_empty_none]
  · cases hf : firstFmt DT_FORMATS (pyStrip s) with
    | none => simp [parse_date_local, he, hf]
    | some d => simp [parse_date_local, he, hf]

/-- The dedup key ignores the seconds of the UTC instant. -/
theorem dedupKeyOf_sameMinute (p l li dis : Option String) (t t' : Fields)
    (h : sameMinute t t') : dedupKeyOf p l li dis t = dedupKeyOf p l li dis t' := by
  obtain ⟨e1, e2, e3, e4, e5⟩ := h
  simp [dedupKeyOf, strftimeMinute, e1, e2, e3, e4, e5]

/-! ## The claims. -/

/-- Claim C1: for the input row with phone `555-123-4567` (under the
recognized `phone_number` header), lead_id `L1`, list_id `A`, status
`SALE`, call_date `9/2/25 11:02` and gmt_offset_now `-4`, the pipeline
(under the default configuration, tolerance 60) emits one canonical
record with Phone `5551234567`, UTC Date `2025-09-02T15:02:00+00:00`
and DedupKey `5551234567|L1|A|SALE|2025-09-02 15:02`. -/
theorem claim1_concrete_scenario :
    ((mainFn dbNone {} evDemo hdrsDemo [rowDemo]).batch).map
        (fun p => p.2.map (fun c => (c.Phone, c.Date, c.DedupKey))) =
      some [(some "5551234567", "2025-09-02T15:02:00+00:00",
             "5551234567|L1|A|SALE|2025-09-02 15:02")] := by
  decide

/-- Claim C2: every accepted record's DedupKey is the '|'-join of its
own Phone, LeadID, ListID and Disposition (empty for absent) with the
minute-truncated UTC timestamp, and its RowHash is the 64-hex-character
SHA-256 of that key; the key ignores seconds, and two accepted records
agreeing on the four identity fields whose timestamps share a UTC
minute get identical DedupKey and RowHash — no other record field
enters the fingerprint. -/
theorem claim2_fingerprint :
    (∀ db cfg hm sf row c, processRow db cfg hm sf row = some c →
      ∃ t, parse_date_local db (srcTzObj db cfg) (get_val row hm ["call_date"])
            (tz_from_row_offset (get_val row hm ["gmt_offset_now"])) =
              some (c.SourceLocalTime, t) ∧
          c.DedupKey = dedupKeyOf c.Phone c.LeadID c.ListID c.Disposition t ∧
          c.RowHash = sha256Hex c.DedupKey ∧ c.RowHash.length = 64) ∧
    (∀ p l li dis t t', sameMinute t t' →
      dedupKeyOf p l li dis t = dedupKeyOf p l li dis t' ∧
        sha256Hex (dedupKeyOf p l li dis t) = sha256Hex (dedupKeyOf p l li dis t')) ∧
    (∀ db cfg hm₁ sf₁ row₁ c₁ hm₂ sf₂ row₂ c₂ txt₁ t₁ txt₂ t₂,
      processRow db cfg hm₁ sf₁ row₁ = some c₁ →
      processRow db cfg hm₂ sf₂ row₂ = some c₂ →
      parse_date_local db (srcTzObj db cfg) (get_val row₁ hm₁ ["call_date"])
          (tz_from_row_offset (get_val row₁ hm₁ ["gmt_offset_now"])) = some (txt₁, t₁) →
      parse_date_local db (srcTzObj db cfg) (get_val row₂ hm₂ ["call_date"])
          (tz_from_row_offset (get_val row₂ hm₂ ["gmt_offset_now"])) = some (txt₂, t₂) →
      c₁.Phone = c₂.Phone → c₁.LeadID = c₂.LeadID → c₁.ListID = c₂.ListID →
      c₁.Disposition = c₂.Disposition → sameMinute t₁ t₂ →
      c₁.DedupKey = c₂.DedupKey ∧ c₁.RowHash = c₂.RowHash) := by
  refine ⟨?_, ?_, ?_⟩
  · intro db cfg hm sf row c h
    cases hp : parse_date_local db (srcTzObj db cfg) (get_val row hm ["call_date"])
        (tz_from_row_offset (get_val row hm ["gmt_offset_now"])) with
    | none =>
        rw [show processRow db cfg hm sf row = none by simp [processRow, hp]] at h
        exact Option.noConfusion h
    | some pr =>
        obtain ⟨txt, t⟩ := pr
        obtain ⟨h1, h2, h3⟩ := processRow_spec db cfg hm sf row c txt t h hp
        refine ⟨t, ?_, h2, h3, ?_⟩
        · rw [h1]
        · simp only [h3]; exact sha256Hex_length _
  · intro p l li dis t t' hmin
    have hk := dedupKeyOf_sameMinute p l li dis t t' hmin
    exact ⟨hk, congrArg sha256Hex hk⟩
  · intro db cfg hm₁ sf₁ row₁ c₁ hm₂ sf₂ row₂ c₂ txt₁ t₁ txt₂ t₂ h₁ h₂ hp₁ hp₂ e1 e2 e3 e4 hmin
    obtain ⟨-, k1, r1⟩ := processRow_spec db cfg hm₁ sf₁ row₁ c₁ txt₁ t₁ h₁ hp₁
    obtain ⟨-, k2, r2⟩ := processRow_spec db cfg hm₂ sf₂ row₂ c₂ txt₂ t₂ h₂ hp₂
    have key : c₁.DedupKey = c₂.DedupKey := by
      rw [k1, k2, e1, e2, e3, e4]
      exact dedupKeyOf_sameMinute _ _ _ _ _ _ hmin
    exact ⟨key, by rw [r1, r2, key]⟩

/-- Claim C2 witness: two rows identical except for second values `:05`
vs `:59` (and different first names) get the same DedupKey and
RowHash. -/
theorem claim2_fingerprint_witness :
    processRow dbNone {} hmDemo sfDemo rowSecA = some recSecA ∧
    processRow dbNone {} hmDemo sfDemo rowSecB = some recSecB ∧
    recSecA.FirstName ≠ recSecB.FirstName ∧
    recSecA.DedupKey = recSecB.DedupKey ∧ recSecA.RowHash = recSecB.RowHash := by
  have hA : processRow dbNone {} hmDemo sfDemo rowSecA = some recSecA := rfl
  have hB : processRow dbNone {} hmDemo sfDemo rowSecB = some recSecB := rfl
  have hpA : parse_date_local dbNone (srcTzObj dbNone {})
      (get_val rowSecA hmDemo ["call_date"])
      (tz_from_row_offset (get_val rowSecA hmDemo ["gmt_offset_now"])) =
        some ("9/2/25 11:02:05", ⟨2025, 9, 2, 15, 2, 5⟩) := by decide
  have hpB : parse_date_local dbNone (srcTzObj dbNone {})
      (get_val rowSecB hmDemo ["call_date"])
      (tz_from_row_offset (get_val rowSecB hmDemo ["gmt_offset_now"])) =
        some ("9/2/25 11:02:59", ⟨2025, 9, 2, 15, 2, 59⟩) := by decide
  obtain ⟨key, hash⟩ := claim2_fingerprint.2.2 dbNone {} hmDemo sfDemo rowSecA recSecA
    hmDemo sfDemo rowSecB recSecB "9/2/25 11:02:05" ⟨2025, 9, 2, 15, 2, 5⟩
    "9/2/25 11:02:59" ⟨2025, 9, 2, 15, 2, 59⟩ hA hB hpA hpB
    (by decide) (by decide) (by decide) (by decide) ⟨rfl, rfl, rfl, rfl, rfl⟩
  exact ⟨hA, hB, by decide, key, hash⟩

/-- Claim C3: the resolver tries the fixed ordered format list and the
first matching format wins; a string matching at least one format
yields a ParsedInstant (original stripped text plus UTC instant), and a
string matching none yields `none`, never a fabricated instant. -/
theorem claim3_first_format (db : ZoneDB) (srcTz : Tz) (s : String) (tzov : Option Tz) :
    (parse_date_local db srcTz (some s) tzov = none ↔
      ∀ fmt ∈ DT_FORMATS, tryFormat fmt (pyStrip s) = none) ∧
    (∀ i d, i < DT_FORMATS.length →
      (∀ j, j < i → tryFormat (DT_FORMATS.getD j "") (pyStrip s) = none) →
      tryFormat (DT_FORMATS.getD i "") (pyStrip s) = some d →
      parse_date_local db srcTz (some s) tzov =
        some (pyStrip s, astimezoneUTC db (tzov.getD srcTz) d)) := by
  constructor
  · exact (parse_none_iff_firstFmt db srcTz s tzov).trans (firstFmt_none_iff _ _)
  · intro i d hi hprev hit
    have hf := firstFmt_first DT_FORMATS (pyStrip s) i d hi hprev hit
    by_cases he : pyStrip s = ""
    · rw [he] at hf
      simp [firstFmt_empty_none] at hf
    · simp [parse_date_local, he, hf]

/-- Claim C3 witness: `9/2/25 11:02` fails formats 0-4, matches format
5, and resolves (row offset -4) to 15:02 UTC; `not a date` matches no
format and is unparseable. -/
theorem claim3_first_format_witness :
    tryFormat (DT_FORMATS.getD 5 "") "9/2/25 11:02" = some ⟨2025, 9, 2, 11, 2, 0⟩ ∧
    parse_date_local dbNone (Tz.fixed (-7)) (some "9/2/25 11:02") (some (Tz.fixed (-4))) =
      some ("9/2/25 11:02", ⟨2025, 9, 2, 15, 2, 0⟩) ∧
    parse_date_local dbNone (Tz.fixed (-7)) (some "not a date") none = none := by
  refine ⟨by decide, ?_, ?_⟩
  · have h := (claim3_first_format dbNone (Tz.fixed (-7)) "9/2/25 11:02"
      (some (Tz.fixed (-4)))).2 5 ⟨2025, 9, 2, 11, 2, 0⟩ (by decide) (by decide) (by decide)
    rw [h]
    decide
  · exact (claim3_first_format dbNone (Tz.fixed (-7)) "not a date" none).1.mpr (by decide)

/-- Claim C4: timezone resolution never raises — a `UTC±H` string (for
a representable offset) gives a fixed-offset zone, any other string is
tried as a named zone, and every failure degrades to UTC; a row-level
signed-integer offset gives a fixed-offset zone and an invalid or
missing row value gives no override rather than an error. -/
theorem claim4_timezone :
    (∀ db s h, utcSignForm (pyStrip s) = true →
        pyIntOpt (pyReplace (pyStrip s) "UTC" "") = some h → -24 < h → h < 24 →
        resolve_tz db s = Tz.fixed h) ∧
    (∀ db s, utcSignForm (pyStrip s) = false → db.valid (pyStrip s) = true →
        resolve_tz db s = Tz.named (pyStrip s)) ∧
    (∀ db s, utcSignForm (pyStrip s) = true →
        pyIntOpt (pyReplace (pyStrip s) "UTC" "") = none → resolve_tz db s = Tz.utc) ∧
    (∀ db s, utcSignForm (pyStrip s) = false → db.valid (pyStrip s) = false →
        resolve_tz db s = Tz.utc) ∧
    (∀ s h, pyIntOpt (pyStrip s) = some h → -24 < h → h < 24 →
        tz_from_row_offset (some s) = some (Tz.fixed h)) ∧
    (∀ s, pyIntOpt (pyStrip s) = none → tz_from_row_offset (some s) = none) ∧
    tz_from_row_offset none = none := by
  refine ⟨?_, ?_, ?_, ?_, ?_, ?_, rfl⟩
  · intro db s h h1 h2 h3 h4
    simp only [resolve_tz, h1, if_true, h2]
    rw [if_pos ⟨h3, h4⟩]
  · intro db s h1 h2
    simp [resolve_tz, h1, h2]
  · intro db s h1 h2
    simp [resolve_tz, h1, h2]
  · intro db s h1 h2
    simp [resolve_tz, h1, h2]
  · intro s h h1 h2 h3
    simp only [tz_from_row_offset, h1]
    rw [if_pos ⟨h2, h3⟩]
  · intro s h1
    simp [tz_from_row_offset, h1]

/-- Claim C4 witness: `UTC-7` gives a fixed -7 zone, `America/Denver`
resolves as a named zone, `UTC+-3` and an unknown zone name degrade to
UTC, row offset `-4` gives a fixed zone, and `abc` / a missing value
give no override. -/
theorem claim4_timezone_witness :
    resolve_tz dbNone "UTC-7" = Tz.fixed (-7) ∧
    resolve_tz dbDenver "America/Denver" = Tz.named "America/Denver" ∧
    resolve_tz dbNone "UTC+-3" = Tz.utc ∧
    resolve_tz dbNone "Mars/Olympus" = Tz.utc ∧
    tz_from_row_offset (some "-4") = some (Tz.fixed (-4)) ∧
    tz_from_row_offset (some "abc") = none ∧
    tz_from_row_offset none = none := by
  refine ⟨?_, ?_, ?_, ?_, ?_, ?_, ?_⟩
  · exact claim4_timezone.1 dbNone "UTC-7" (-7) (by decide) (by decide) (by decide) (by decide)
  · have h := claim4_timezone.2.1 dbDenver "America/Denver" (by decide) (by decide)
    rw [show pyStrip "America/Denver" = "America/Denver" from by decide] at h
    exact h
  · exact claim4_timezone.2.2.1 dbNone "UTC+-3" (by decide) (by decide)
  · exact claim4_timezone.2.2.2.1 dbNone "Mars/Olympus" (by decide) (by decide)
  · exact claim4_timezone.2.2.2.2.1 "-4" (-4) (by decide) (by decide) (by decide)
  · exact claim4_timezone.2.2.2.2.2.1 "abc" (by decide)
  · exact claim4_timezone.2.2.2.2.2.2

/-- Claim C5: a row is rejected iff its call-date fails to parse; a
rejected row bumps only the error counter and the loop continues with
the remaining rows, while an accepted row bumps only the accepted
counter — no other field can reject a row. -/
theorem claim5_rejection (db : ZoneDB) (cfg : Config) (hm : HeaderMap) (sf : String)
    (row : RawRow) (rows : List RawRow) :
    (processRow db cfg hm sf row = none ↔
      parse_date_local db (srcTzObj db cfg) (get_val row hm ["call_date"])
        (tz_from_row_offset (get_val row hm ["gmt_offset_now"])) = none) ∧
    (processRow db cfg hm sf row = none →
      processRows db cfg hm sf (row :: rows) =
        ⟨(processRows db cfg hm sf rows).total + 1, (processRows db cfg hm sf rows).good,
         (processRows db cfg hm sf rows).bad + 1, (processRows db cfg hm sf rows).batch⟩) ∧
    (∀ c, processRow db cfg hm sf row = some c →
      processRows db cfg hm sf (row :: rows) =
        ⟨(processRows db cfg hm sf rows).total + 1, (processRows db cfg hm sf rows).good + 1,
         (processRows db cfg hm sf rows).bad, c :: (processRows db cfg hm sf rows).batch⟩) := by
  refine ⟨?_, ?_, ?_⟩
  · cases hp : parse_date_local db (srcTzObj db cfg) (get_val row hm ["call_date"])
        (tz_from_row_offset (get_val row hm ["gmt_offset_now"])) with
    | none => simp [processRow, hp]
    | some pr => simp [processRow, hp]
  · intro h
    simp [processRows, h]
  · intro c h
    simp [processRows, h]

/-- Claim C5 witness: the unparseable-date row is rejected and, placed
before an accepted row, bumps only the error counter while processing
continues. -/
theorem claim5_rejection_witness :
    (processRow dbNone {} hmDemo sfDemo rowBad = none) ∧
    processRows dbNone {} hmDemo sfDemo (rowBad :: [rowDemo]) =
      ⟨(processRows dbNone {} hmDemo sfDemo [rowDemo]).total + 1,
       (processRows dbNone {} hmDemo sfDemo [rowDemo]).good,
       (processRows dbNone {} hmDemo sfDemo [rowDemo]).bad + 1,
       (processRows dbNone {} hmDemo sfDemo [rowDemo]).batch⟩ := by
  have hbad : processRow dbNone {} hmDemo sfDemo rowBad = none := by decide
  exact ⟨hbad, ((claim5_rejection dbNone {} hmDemo sfDemo rowBad [rowDemo]).2.1) hbad⟩

/-- Claim C6: with zero accepted rows no batch is uploaded and neither
load nor merge is invoked, yet the audit row is still inserted and the
file still copied to `processed/` and deleted; with at least one
accepted row the upload, load and merge all occur as well. -/
theorem claim6_effects (db : ZoneDB) (cfg : Config) (ev : Event)
    (fieldnames : List (Option String)) (rows : List RawRow)
    (res : MainResult) (r : LoopRes)
    (hpre : pyStartsWith ev.name cfg.inputPfx = true)
    (hres : mainFn db cfg ev fieldnames rows = res)
    (hr : processRows db cfg (normalize_headers fieldnames)
        ("gs://" ++ ev.bucket ++ "/" ++ ev.name) rows = r) :
    (r.good = 0 →
      res.batch = none ∧ res.loadedFrom = none ∧ res.mergeTol = none ∧
      res.sourceRead = true ∧
      res.audit = some ⟨"gs://" ++ ev.bucket ++ "/" ++ ev.name, r.total, r.bad,
        "Processed good=" ++ toString r.good ++ ", bad=" ++ toString r.bad⟩ ∧
      res.copiedTo = some ("processed/" ++ lastPathComponent ev.name) ∧
      res.deleted = true) ∧
    (0 < r.good →
      res.batch = some (cfg.tmpPfx ++ ev.name ++ ".ndjson", r.batch) ∧
      res.loadedFrom = some ("gs://" ++ ev.bucket ++ "/" ++ (cfg.tmpPfx ++ ev.name ++ ".ndjson")) ∧
      res.mergeTol = some cfg.timeTolSec ∧
      res.audit = some ⟨"gs://" ++ ev.bucket ++ "/" ++ ev.name, r.total, r.bad,
        "Processed good=" ++ toString r.good ++ ", bad=" ++ toString r.bad⟩ ∧
      res.copiedTo = some ("processed/" ++ lastPathComponent ev.name) ∧
      res.deleted = true) := by
  subst hres
  subst hr
  constructor
  · intro h
    simp [mainFn, hpre, h]
  · intro h
    have h' : (0 < (processRows db cfg (normalize_headers fieldnames)
        ("gs://" ++ ev.bucket ++ "/" ++ ev.name) rows).good) = True := eq_true h
    simp [mainFn, hpre, h']

/-- Claim C6 witness: the all-rejected single-row file gets no batch,
load or merge yet exactly this audit row and the relocation; the
accepted single-row file also triggers merge (tolerance 60) and load. -/
theorem claim6_effects_witness :
    (mainFn dbNone {} evDemo hdrsDemo [rowBad]).batch = none ∧
    (mainFn dbNone {} evDemo hdrsDemo [rowBad]).loadedFrom = none ∧
    (mainFn dbNone {} evDemo hdrsDemo [rowBad]).mergeTol = none ∧
    (mainFn dbNone {} evDemo hdrsDemo [rowBad]).audit =
      some ⟨"gs://call-exports/call-exports/export1.csv", 1, 1,
        "Processed good=0, bad=1"⟩ ∧
    (mainFn dbNone {} evDemo hdrsDemo [rowBad]).copiedTo = some "processed/export1.csv" ∧
    (mainFn dbNone {} evDemo hdrsDemo [rowBad]).deleted = true ∧
    (mainFn dbNone {} evDemo hdrsDemo [rowDemo]).mergeTol = some 60 ∧
    (mainFn dbNone {} evDemo hdrsDemo [rowDemo]).loadedFrom =
      some "gs://call-exports/tmp/normalized/call-exports/export1.csv.ndjson" := by
  have h0 := (claim6_effects dbNone {} evDemo hdrsDemo [rowBad] _ _ (by decide) rfl rfl).1
    (by decide)
  have h1 := (claim6_effects dbNone {} evDemo hdrsDemo [rowDemo] _ _ (by decide) rfl rfl).2
    (by decide)
  obtain ⟨b0, l0, m0, s0, a0, c0, d0⟩ := h0
  obtain ⟨b1, l1, m1, a1, c1, d1⟩ := h1
  refine ⟨b0, l0, m0, ?_, ?_, d0, ?_, ?_⟩
  · rw [a0]; decide
  · rw [c0]; decide
  · rw [m1]
  · rw [l1]; decide

/-- Claim C7 counterexample: `normalize_headers` keeps an entry (under
the empty normalized key) for a `None` header and for an empty header,
so such entries are not dropped from the mapping. -/
theorem claim7_counterexample :
    dictGet (normalize_headers [none]) "" ≠ none ∧
    dictGet (normalize_headers [some ""]) "" ≠ none := by decide

/-- Claim C7 amended: every header entry that is empty or null is
*retained* in the HeaderMap, keyed by the empty normalized string (the
last such entry winning), rather than dropped. -/
theorem claim7_amended (fieldnames : List (Option String)) (h : Option String)
    (hmem : h ∈ fieldnames) (hempty : cleanHeader h = "") :
    (dictGet (normalize_headers fieldnames) "").isSome = true := by
  have hm : (("" : String), h) ∈ normalize_headers fieldnames := by
    have h2 := List.mem_map_of_mem (fun x => (cleanHeader x, x)) hmem
    simpa only [hempty] using h2
  exact dictGet_isSome_of_mem _ _ _ hm

/-- Claim C7 amended witness: a header list with a `None` entry yields
a map that still has an entry under the empty key. -/
theorem claim7_amended_witness :
    (dictGet (normalize_headers [some "phone_number", none]) "").isSome = true :=
  claim7_amended [some "phone_number", none] none (by decide) (by decide)

/-- Claim C8: after the loop, total = accepted + rejected (and equals
the number of rows read), and the audit row records exactly that total
and that rejected count. -/
theorem claim8_totals (db : ZoneDB) (cfg : Config) (hm : HeaderMap) (sf : String)
    (rows : List RawRow) :
    ((processRows db cfg hm sf rows).total =
        (processRows db cfg hm sf rows).good + (processRows db cfg hm sf rows).bad ∧
      (processRows db cfg hm sf rows).total = rows.length) ∧
    (∀ ev fieldnames a, pyStartsWith ev.name cfg.inputPfx = true →
      (mainFn db cfg ev fieldnames rows).audit = some a →
      a.rowsTotal = (processRows db cfg (normalize_headers fieldnames)
          ("gs://" ++ ev.bucket ++ "/" ++ ev.name) rows).total ∧
      a.rowsErrored = (processRows db cfg (normalize_headers fieldnames)
          ("gs://" ++ ev.bucket ++ "/" ++ ev.name) rows).bad) := by
  refine ⟨processRows_counters db cfg hm sf rows, ?_⟩
  intro ev fieldnames a hpre ha
  simp only [mainFn, hpre, Bool.not_true, if_neg] at ha
  · injection ha with ha
    subst ha
    exact ⟨rfl, rfl⟩

/-- Claim C8 witness: the two-row demonstration file (one accepted, one
rejected) has total 2 = 1 + 1 and an audit row recording total 2 and
one errored row. -/
theorem claim8_totals_witness :
    ((processRows dbNone {} hmDemo sfDemo [rowDemo, rowBad]).total =
        (processRows dbNone {} hmDemo sfDemo [rowDemo, rowBad]).good +
          (processRows dbNone {} hmDemo sfDemo [rowDemo, rowBad]).bad ∧
      (processRows dbNone {} hmDemo sfDemo [rowDemo, rowBad]).total = 2) ∧
    auditDemo.rowsTotal = 2 ∧ auditDemo.rowsErrored = 1 := by
  have h1 := (claim8_totals dbNone {} hmDemo sfDemo [rowDemo, rowBad]).1
  have h2 := (claim8_totals dbNone {} hmDemo sfDemo [rowDemo, rowBad]).2
    evDemo hdrsDemo auditDemo (by decide) rfl
  obtain ⟨ht, he⟩ := h2
  refine ⟨⟨h1.1, h1.2⟩, ?_, ?_⟩
  · rw [ht]; decide
  · rw [he]; decide

/-- Claim C9: a trigger object whose name lacks the input prefix makes
`main` return immediately with no effects at all — nothing read,
written, loaded, merged, audited, copied or deleted. -/
theorem claim9_untouched (db : ZoneDB) (cfg : Config) (ev : Event)
    (fieldnames : List (Option String)) (rows : List RawRow)
    (h : pyStartsWith ev.name cfg.inputPfx = false) :
    mainFn db cfg ev fieldnames rows = ⟨false, none, none, none, none, none, false⟩ := by
  simp [mainFn, h]

/-- Claim C9 witness: an object under `unrelated/` triggers no effects
under the default prefix `call-exports/`. -/
theorem claim9_untouched_witness :
    mainFn dbNone {} ⟨"call-exports", "unrelated/export1.csv"⟩ hdrsDemo [rowDemo] =
      ⟨false, none, none, none, none, none, false⟩ :=
  claim9_untouched dbNone {} ⟨"call-exports", "unrelated/export1.csv"⟩ hdrsDemo [rowDemo]
    (by decide)

/-- Claim C10: the '|'-joined dedup key is not injective — two distinct
(phone, lead, list, disposition, minute) tuples (a '|' inside the
disposition vs inside the list id) yield the identical DedupKey and
hence the identical RowHash. -/
theorem claim10_separator :
    dedupKeyOf (some "5551234567") (some "L1") (some "A") (some "S|X") ⟨2025, 9, 2, 15, 2, 0⟩ =
        dedupKeyOf (some "5551234567") (some "L1") (some "A|S") (some "X") ⟨2025, 9, 2, 15, 2, 0⟩ ∧
      sha256Hex (dedupKeyOf (some "5551234567") (some "L1") (some "A") (some "S|X")
          ⟨2025, 9, 2, 15, 2, 0⟩) =
        sha256Hex (dedupKeyOf (some "5551234567") (some "L1") (some "A|S") (some "X")
          ⟨2025, 9, 2, 15, 2, 0⟩) ∧
      ((some "A", some "S|X") : Option String × Option String) ≠ (some "A|S", some "X") := by
  refine ⟨by decide, ?_, by decide⟩
  have h : dedupKeyOf (some "5551234567") (some "L1") (some "A") (some "S|X")
      ⟨2025, 9, 2, 15, 2, 0⟩ =
      dedupKeyOf (some "5551234567") (some "L1") (some "A|S") (some "X")
      ⟨2025, 9, 2, 15, 2, 0⟩ := by decide
  exact congrArg sha256Hex h

end CallBackfill
